import Mathlib

/-
Verification development for the disaggregated prefill/decode proxy server
(tests/v1/kv_connector/nixl_integration/toy_proxy_server.py).

The embedding models JSON values, the request-payload mutations performed by
the proxy, the first-chunk timing rewrite of the decode stream, the
round-robin client selector and the startup-argument validation.
-/

namespace ToyProxy

/-- JSON values, as manipulated by the proxy. Objects are insertion-ordered
association lists, matching Python dict semantics (no duplicate keys arise
from dict literals and item assignment). Numbers are rationals: the proxy
only copies numeric fields, never computes with them. -/
inductive JVal where
  | null
  | bool (b : Bool)
  | num (q : Rat)
  | str (s : String)
  | arr (elems : List JVal)
  | obj (fields : List (String × JVal))

/-- Lookup of a key in a JSON object body, first occurrence (Python dict
subscript / membership reads). -/
def getKey : List (String × JVal) → String → Option JVal
  | [], _ => none
  | (k', v) :: t, k => if k' = k then some v else getKey t k

/-- Membership test, Python `k in d`. -/
def hasKey : List (String × JVal) → String → Bool
  | [], _ => false
  | (k', _) :: t, k => if k' = k then true else hasKey t k

/-- Python dict item assignment `d[k] = v`: an existing key keeps its
position and gets the new value; a new key is appended at the end. -/
def setKey : List (String × JVal) → String → JVal → List (String × JVal)
  | [], k, v => [(k, v)]
  | (k', v') :: t, k, v =>
    if k' = k then (k, v) :: t else (k', v') :: setKey t k v

/-- Python `del d[k]`. -/
def delKey : List (String × JVal) → String → List (String × JVal)
  | [], _ => []
  | (k', v') :: t, k => if k' = k then delKey t k else (k', v') :: delKey t k

/-- Python `d.get(k, default)`. -/
def getD (l : List (String × JVal)) (k : String) (d : JVal) : JVal :=
  (getKey l k).getD d

theorem getKey_setKey_self (l : List (String × JVal)) (k : String) (v : JVal) :
    getKey (setKey l k v) k = some v := by
  induction l with
  | nil => simp [setKey, getKey]
  | cons p t ih =>
    obtain ⟨k', v'⟩ := p
    by_cases h : k' = k
    · simp [setKey, getKey, h]
    · simp [setKey, getKey, h, ih]

theorem getKey_setKey_ne (l : List (String × JVal)) (k k' : String) (v : JVal)
    (h : k' ≠ k) : getKey (setKey l k v) k' = getKey l k' := by
  induction l with
  | nil => simp [setKey, getKey, Ne.symm h]
  | cons p t ih =>
    obtain ⟨k0, v0⟩ := p
    by_cases h0 : k0 = k
    · simp [setKey, getKey, h0, Ne.symm h]
    · simp [setKey, getKey, h0, ih]

theorem getKey_delKey_self (l : List (String × JVal)) (k : String) :
    getKey (delKey l k) k = none := by
  induction l with
  | nil => simp [delKey, getKey]
  | cons p t ih =>
    obtain ⟨k0, v0⟩ := p
    by_cases h0 : k0 = k
    · simp [delKey, h0, ih]
    · simp [delKey, getKey, h0, ih]

theorem getKey_delKey_ne (l : List (String × JVal)) (k k' : String)
    (h : k' ≠ k) : getKey (delKey l k) k' = getKey l k' := by
  induction l with
  | nil => simp [delKey]
  | cons p t ih =>
    obtain ⟨k0, v0⟩ := p
    by_cases h0 : k0 = k
    · simp [delKey, getKey, h0, Ne.symm h, ih]
    · simp [delKey, getKey, h0, ih]

theorem hasKey_eq_isSome (l : List (String × JVal)) (k : String) :
    hasKey l k = (getKey l k).isSome := by
  induction l with
  | nil => simp [hasKey, getKey]
  | cons p t ih =>
    obtain ⟨k0, v0⟩ := p
    by_cases h0 : k0 = k
    · simp [hasKey, getKey, h0]
    · simp [hasKey, getKey, h0, ih]

theorem getKey_eq_none_of_hasKey_false (l : List (String × JVal)) (k : String)
    (h : hasKey l k = false) : getKey l k = none := by
  rw [hasKey_eq_isSome] at h
  cases hg : getKey l k with
  | none => rfl
  | some v => rw [hg] at h; simp at h

theorem hasKey_setKey_ne (l : List (String × JVal)) (k k' : String) (v : JVal)
    (h : k' ≠ k) : hasKey (setKey l k v) k' = hasKey l k' := by
  rw [hasKey_eq_isSome, hasKey_eq_isSome, getKey_setKey_ne l k k' v h]

/-- Python truthiness of a JSON value, as used by `if kv_transfer_params:`.
Empty dict, empty list, empty string, zero, False and None are falsy. -/
def jvalTruthy : JVal → Bool
  | .null => false
  | .bool b => b
  | .num q => decide (q ≠ 0)
  | .str s => decide (s ≠ "")
  | .arr elems => !elems.isEmpty
  | .obj fields => !fields.isEmpty

/-- The fixed KV-transfer intent flags attached to every prefill-phase
request (toy_proxy_server.py lines 166-173). -/
def prefill_kv_transfer_params : JVal :=
  .obj [("do_remote_decode", .bool true),
        ("do_remote_prefill", .bool false),
        ("remote_engine_id", .null),
        ("remote_block_ids", .null),
        ("remote_host", .null),
        ("remote_port", .null)]

/-- Conditional assignment of toy_proxy_server.py lines 176-177: cap
max_completion_tokens to 1 when the field is present. -/
def cap_max_completion_tokens (r : List (String × JVal)) :
    List (String × JVal) :=
  if hasKey r "max_completion_tokens" then
    setKey r "max_completion_tokens" (.num 1)
  else r

/-- Conditional deletion of toy_proxy_server.py lines 178-179: delete
stream_options when present. -/
def strip_stream_options (r : List (String × JVal)) :
    List (String × JVal) :=
  if hasKey r "stream_options" then delKey r "stream_options" else r

/-- Payload mutation performed by send_request_to_service
(toy_proxy_server.py lines 165-179) on a copy of the inbound payload:
set kv_transfer_params to the fixed flags, force stream to false, cap
max_tokens to 1, cap max_completion_tokens to 1 when present, and delete
stream_options when present. The network send and headers are external. -/
def send_request_to_service (req_data : List (String × JVal)) :
    List (String × JVal) :=
  strip_stream_options (cap_max_completion_tokens
    (setKey (setKey
        (setKey req_data "kv_transfer_params" prefill_kv_transfer_params)
        "stream" (JVal.bool false))
      "max_tokens" (JVal.num 1)))

/-- Decode-phase payload construction in _handle_completions
(toy_proxy_server.py lines 238-241): fetch kv_transfer_params from the
prefill response with default empty dict, and overwrite the key in the
original payload only when the fetched value is truthy. -/
def merge_kv_transfer_params (req_data resp : List (String × JVal)) :
    List (String × JVal) :=
  let kv := getD resp "kv_transfer_params" (.obj [])
  if jvalTruthy kv then setKey req_data "kv_transfer_params" kv else req_data

/-- Whether one timing sub-value survives the PREFILL_TIMING log line of
toy_proxy_server.py lines 250-252, which formats
`timing.get(key, 0) * 1000` with the `.1f` float specifier. A missing key
uses the numeric default 0 and logs fine; a numeric value (Python ints,
floats and bools, since bool is an int) multiplies and formats fine; any
other present value (None, a string, a list, a dict) raises a TypeError
or ValueError in that f-string. -/
def logArgOk : Option JVal → Bool
  | none => true
  | some (.num _) => true
  | some (.bool _) => true
  | some _ => false

/-- Extraction of prefill_timing in _handle_completions
(toy_proxy_server.py lines 243-252). Outer `none` models every exception
escaping this block to the outer handler: the AttributeError raised by
`timing.get` when vllm_timing is present but not a dict, and the
TypeError or ValueError raised by the PREFILL_TIMING log f-string when a
timing sub-value is present but not numeric. Inner value: `none` when
vllm_timing is absent (prefill_timing stays the empty, falsy dict),
otherwise the pair of stored `timing.get` results, which use no default
and hence are null, like Python None, when a sub-key is missing. -/
def extract_prefill_timing (resp : List (String × JVal)) :
    Option (Option (JVal × JVal)) :=
  match getKey resp "vllm_timing" with
  | none => some none
  | some (.obj ts) =>
    if logArgOk (getKey ts "queued_time")
        && logArgOk (getKey ts "execute_time") then
      some (some (getD ts "queued_time" .null,
                  getD ts "execute_time" .null))
    else none
  | some _ => none

/-- Shape of one received decode-stream chunk, after the utf-8 decode and
the checks performed by generate_stream (toy_proxy_server.py lines
288-296). `undecodable` models a chunk whose utf-8 decode raises;
`notData` a decoded text not starting with the data marker; `dataChunk`
carries the stripped payload text after the marker plus the result of
json.loads on it (`none` when json.loads raises). -/
inductive ChunkForm where
  | undecodable
  | notData (raw : String)
  | dataChunk (payload : String) (parsed : Option JVal)

/-- What is relayed to the caller for one received chunk: either the
original received bytes, or a re-serialized rewritten event. -/
inductive SentChunk where
  | forwarded
  | rewritten (j : JVal)

/-- The four-field timing object built by the first-chunk rewrite
(toy_proxy_server.py lines 297-306). -/
def make_timing_obj (pq pe dq de : JVal) : JVal :=
  .obj [("prefill_queued_time", pq),
        ("prefill_execute_time", pe),
        ("decode_queued_time", dq),
        ("decode_execute_time", de)]

/-- The body of the try block of generate_stream acting on parsed event
data (toy_proxy_server.py lines 292-306): the assert demands a vllm_timing
object carrying queued_time and execute_time; on success the vllm_timing
entry is replaced by the four-field object. `none` collapses every path on
which the Python code raises inside the try block (failed assert, or a
TypeError from a non-dict vllm_timing value or non-dict event). -/
def inject_timing (pq pe : JVal) (data : JVal) : Option JVal :=
  match data with
  | .obj fs =>
    match getKey fs "vllm_timing" with
    | some (.obj ts) =>
      match getKey ts "queued_time", getKey ts "execute_time" with
      | some dq, some de =>
        some (.obj (setKey fs "vllm_timing" (make_timing_obj pq pe dq de)))
      | _, _ => none
    | _ => none
  | _ => none

/-- One attempted injection on a chunk (toy_proxy_server.py lines
284-311): the full try/except. Returns the relayed chunk and whether the
warning `Failed to inject timing info` was logged (true exactly when an
exception was caught). A text not starting with the data marker, an empty
payload, or the `[DONE]` terminator fall through the ifs: forwarded
unchanged, no exception, no warning. -/
def try_inject (pq pe : JVal) (c : ChunkForm) : SentChunk × Bool :=
  match c with
  | .undecodable => (.forwarded, true)
  | .notData _ => (.forwarded, false)
  | .dataChunk payload parsed =>
    if payload = "" ∨ payload = "[DONE]" then (.forwarded, false)
    else
      match parsed with
      | none => (.forwarded, true)
      | some data =>
        match inject_timing pq pe data with
        | none => (.forwarded, true)
        | some d => (.rewritten d, false)

/-- Loop body of generate_stream (toy_proxy_server.py lines 265-313). Each
received chunk comes with its get_timestamp_ms value. first_token_ms is
set from the first chunk; the injection is attempted on a chunk exactly
when `first_token_ms == current_time_ms` holds and prefill_timing is a
non-empty (truthy) dict, modelled as `some (pq, pe)`. -/
def stream_go (pt : Option (JVal × JVal)) (first_token_ms : Option Int) :
    List (ChunkForm × Int) → List (SentChunk × Bool)
  | [] => []
  | (c, t) :: rest =>
    let ftm := first_token_ms.getD t
    let out :=
      if ftm = t then
        match pt with
        | some (pq, pe) => try_inject pq pe c
        | none => (SentChunk.forwarded, false)
      else (SentChunk.forwarded, false)
    out :: stream_go pt (some ftm) rest

/-- The relayed stream produced by generate_stream for a given captured
prefill_timing and received chunk/timestamp sequence. -/
def generate_stream (pt : Option (JVal × JVal))
    (chunks : List (ChunkForm × Int)) : List (SentChunk × Bool) :=
  stream_go pt none chunks

/-- Outcome of one backend HTTP call. `httpError` is the HTTPStatusError
raised by raise_for_status for a non-2xx backend response, carrying that
response's status and body. `internalError` is any other exception. -/
inductive Outcome (α : Type) where
  | ok (a : α)
  | httpError (status : Nat) (body : String)
  | internalError

/-- Fate of the body of the StreamingResponse returned by the handler.
The decode call and its raise_for_status run inside the generator, when
the body is first iterated, after the response object has already been
handed to the framework: a decode error aborts the body, carrying the
backend status and body on the raised error, but cannot become the
status or body of the already-returned response. -/
inductive StreamBody where
  | complete (outs : List (SentChunk × Bool))
  | abortedHttp (status : Nat) (body : String)
  | abortedInternal

/-- What _handle_completions produces for the framework. `raisedHttp` and
`raisedInternal` are exceptions escaping the handler before any response
is returned: the outer except block logs and re-raises them unchanged,
and converting them into the caller-visible HTTP response is the
framework's default handling, outside this code. `streamingResponse` is
the StreamingResponse return value together with the fate of its body. -/
inductive HandlerResult where
  | streamingResponse (body : StreamBody)
  | raisedHttp (status : Nat) (body : String)
  | raisedInternal

/-- The dispatch skeleton of _handle_completions (toy_proxy_server.py
lines 212-332). Backends are modelled as functions from the sent payload
and the attempt number to an outcome; the code issues exactly one attempt
(index 0) per phase and never retries. A prefill httpError, or an
exception from the prefill_timing extraction block, is raised out of the
handler before any decode call. Otherwise the handler returns the
StreamingResponse; the decode call runs inside its body generator, so a
decode httpError aborts the body, and on success the body relays
generate_stream applied to the captured prefill_timing and the received
chunks. -/
def handle_completions (req : List (String × JVal))
    (prefillBackend : List (String × JVal) → Nat →
      Outcome (List (String × JVal)))
    (decodeBackend : List (String × JVal) → Nat →
      Outcome (List (ChunkForm × Int))) :
    HandlerResult :=
  match prefillBackend (send_request_to_service req) 0 with
  | .internalError => .raisedInternal
  | .httpError s b => .raisedHttp s b
  | .ok resp =>
    match extract_prefill_timing resp with
    | none => .raisedInternal
    | some pt =>
      .streamingResponse
        (match decodeBackend (merge_kv_transfer_params req resp) 0 with
         | .internalError => .abortedInternal
         | .httpError s b => .abortedHttp s b
         | .ok chunks => .complete (generate_stream pt chunks))

/-- Per-role round-robin cursors, both starting at 0: the state of the two
itertools.cycle iterators created in lifespan (toy_proxy_server.py lines
67-71). cycle(range(n)) yields k mod n at its k-th next call. -/
structure AppState where
  prefill_cursor : Nat
  decode_cursor : Nat

/-- Selection step of get_next_client (toy_proxy_server.py lines 139-157)
over pools of the given sizes. `none` models the exceptions: ValueError
for an unknown service type, StopIteration from next on a cycle over an
empty range. -/
def get_next_client (nPrefill nDecode : Nat) (st : AppState)
    (service_type : String) : Option (Nat × AppState) :=
  if service_type = "prefill" then
    if nPrefill = 0 then none
    else some (st.prefill_cursor % nPrefill,
               ⟨st.prefill_cursor + 1, st.decode_cursor⟩)
  else if service_type = "decode" then
    if nDecode = 0 then none
    else some (st.decode_cursor % nDecode,
               ⟨st.prefill_cursor, st.decode_cursor + 1⟩)
  else none

/-- A sequence of get_next_client calls threaded through the shared
selector state, pairing each call with the index it returned (`none` for
a raising call, which leaves the iterators untouched). -/
def run_calls (nPrefill nDecode : Nat) (st : AppState) :
    List String → List (String × Option Nat)
  | [] => []
  | r :: rs =>
    match get_next_client nPrefill nDecode st r with
    | some (i, st') => (r, some i) :: run_calls nPrefill nDecode st' rs
    | none => (r, none) :: run_calls nPrefill nDecode st rs

/-- The results of the calls made for one role, in call order. -/
def role_outputs (role : String) (outs : List (String × Option Nat)) :
    List (Option Nat) :=
  (outs.filter (fun p => decide (p.1 = role))).map Prod.snd

/-- Parsed startup configuration (toy_proxy_server.py lines 131-134). -/
structure Args where
  prefiller_instances : List (String × Nat)
  decoder_instances : List (String × Nat)

/-- Startup validation of parse_args (toy_proxy_server.py lines 90-136).
Each list argument is `none` when its flag is absent (argparse default
applies) and `some values` when supplied. argparse `nargs` plus rejects a
flag given with zero values before the validation code runs; then the
explicit ValueError checks compare the effective list lengths; on success
hosts and ports are zipped per role. -/
def parse_args (ph : Option (List String)) (pp : Option (List Nat))
    (dh : Option (List String)) (dp : Option (List Nat)) :
    Except String Args :=
  if ph = some [] ∨ pp = some [] ∨ dh = some [] ∨ dp = some [] then
    .error "expected at least one argument"
  else
    let phosts := ph.getD ["localhost"]
    let pports := pp.getD [8100]
    let dhosts := dh.getD ["localhost"]
    let dports := dp.getD [8200]
    if phosts.length ≠ pports.length then
      .error "Number of prefiller hosts must match number of prefiller ports"
    else if dhosts.length ≠ dports.length then
      .error "Number of decoder hosts must match number of decoder ports"
    else
      .ok ⟨phosts.zip pports, dhosts.zip dports⟩

theorem getKey_cap_mct_ne (r : List (String × JVal)) (k : String)
    (h : k ≠ "max_completion_tokens") :
    getKey (cap_max_completion_tokens r) k = getKey r k := by
  unfold cap_max_completion_tokens
  by_cases hm : hasKey r "max_completion_tokens" = true
  · simp [hm, getKey_setKey_ne _ _ _ _ h]
  · simp [hm]

theorem getKey_cap_mct_self (r : List (String × JVal)) :
    getKey (cap_max_completion_tokens r) "max_completion_tokens" =
      if hasKey r "max_completion_tokens" then some (JVal.num 1) else none := by
  unfold cap_max_completion_tokens
  by_cases hm : hasKey r "max_completion_tokens" = true
  · simp [hm, getKey_setKey_self]
  · simp only [Bool.not_eq_true] at hm
    simp [hm, getKey_eq_none_of_hasKey_false r _ hm]

theorem hasKey_cap_mct_ne (r : List (String × JVal)) (k : String)
    (h : k ≠ "max_completion_tokens") :
    hasKey (cap_max_completion_tokens r) k = hasKey r k := by
  rw [hasKey_eq_isSome, hasKey_eq_isSome, getKey_cap_mct_ne r k h]

theorem getKey_strip_so_ne (r : List (String × JVal)) (k : String)
    (h : k ≠ "stream_options") :
    getKey (strip_stream_options r) k = getKey r k := by
  unfold strip_stream_options
  by_cases hs : hasKey r "stream_options" = true
  · simp [hs, getKey_delKey_ne _ _ _ h]
  · simp [hs]

theorem getKey_strip_so_self (r : List (String × JVal)) :
    getKey (strip_stream_options r) "stream_options" = none := by
  unfold strip_stream_options
  by_cases hs : hasKey r "stream_options" = true
  · simp [hs, getKey_delKey_self]
  · simp only [Bool.not_eq_true] at hs
    simp [hs, getKey_eq_none_of_hasKey_false r _ hs]

theorem stream_go_length (pt : Option (JVal × JVal)) :
    ∀ (fm : Option Int) (cs : List (ChunkForm × Int)),
      (stream_go pt fm cs).length = cs.length := by
  intro fm cs
  induction cs generalizing fm with
  | nil => rfl
  | cons p rest ih =>
    obtain ⟨c, t⟩ := p
    simp [stream_go, ih]

/-- C1: the prefill-phase request equals the inbound payload with stream
forced to false, max_tokens capped to exactly 1, max_completion_tokens
capped to 1 exactly when that field is present, stream_options removed,
kv_transfer_params set to the fixed intent flags, and every other field
unchanged; the mutation is the pure function send_request_to_service of
the input payload. -/
theorem claim_C1_prefill_request_mutation (req : List (String × JVal)) :
    getKey (send_request_to_service req) "stream" = some (JVal.bool false)
  ∧ getKey (send_request_to_service req) "max_tokens" = some (JVal.num 1)
  ∧ (hasKey req "max_completion_tokens" = true →
      getKey (send_request_to_service req) "max_completion_tokens"
        = some (JVal.num 1))
  ∧ (hasKey req "max_completion_tokens" = false →
      getKey (send_request_to_service req) "max_completion_tokens" = none)
  ∧ getKey (send_request_to_service req) "stream_options" = none
  ∧ getKey (send_request_to_service req) "kv_transfer_params"
      = some prefill_kv_transfer_params
  ∧ ∀ k, k ≠ "stream" → k ≠ "max_tokens" → k ≠ "max_completion_tokens" →
      k ≠ "stream_options" → k ≠ "kv_transfer_params" →
      getKey (send_request_to_service req) k = getKey req k := by
  unfold send_request_to_service
  have hmct : hasKey
      (setKey (setKey
          (setKey req "kv_transfer_params" prefill_kv_transfer_params)
          "stream" (JVal.bool false)) "max_tokens" (JVal.num 1))
      "max_completion_tokens" = hasKey req "max_completion_tokens" := by
    rw [hasKey_setKey_ne _ _ _ _ (by decide),
        hasKey_setKey_ne _ _ _ _ (by decide),
        hasKey_setKey_ne _ _ _ _ (by decide)]
  refine ⟨?_, ?_, ?_, ?_, ?_, ?_, ?_⟩
  · rw [getKey_strip_so_ne _ _ (by decide), getKey_cap_mct_ne _ _ (by decide),
        getKey_setKey_ne _ _ _ _ (by decide), getKey_setKey_self]
  · rw [getKey_strip_so_ne _ _ (by decide), getKey_cap_mct_ne _ _ (by decide),
        getKey_setKey_self]
  · intro hp
    rw [getKey_strip_so_ne _ _ (by decide), getKey_cap_mct_self, hmct, hp,
        if_pos rfl]
  · intro hp
    rw [getKey_strip_so_ne _ _ (by decide), getKey_cap_mct_self, hmct, hp]
    simp
  · exact getKey_strip_so_self _
  · rw [getKey_strip_so_ne _ _ (by decide), getKey_cap_mct_ne _ _ (by decide),
        getKey_setKey_ne _ _ _ _ (by decide),
        getKey_setKey_ne _ _ _ _ (by decide), getKey_setKey_self]
  · intro k h1 h2 h3 h4 h5
    rw [getKey_strip_so_ne _ _ h4, getKey_cap_mct_ne _ _ h3,
        getKey_setKey_ne _ _ _ _ h2, getKey_setKey_ne _ _ _ _ h1,
        getKey_setKey_ne _ _ _ _ h5]

/-- Witness for C1 on the concrete payload of the end-to-end scenario,
extended with stream_options and max_completion_tokens fields. -/
theorem claim_C1_witness :
    getKey (send_request_to_service
      [("model", JVal.str "m"), ("prompt", JVal.str "x"),
       ("max_tokens", JVal.num 50), ("stream", JVal.bool true),
       ("stream_options", JVal.obj []),
       ("max_completion_tokens", JVal.num 7)]) "stream"
      = some (JVal.bool false)
  ∧ getKey (send_request_to_service
      [("model", JVal.str "m"), ("prompt", JVal.str "x"),
       ("max_tokens", JVal.num 50), ("stream", JVal.bool true),
       ("stream_options", JVal.obj []),
       ("max_completion_tokens", JVal.num 7)]) "max_completion_tokens"
      = some (JVal.num 1)
  ∧ getKey (send_request_to_service
      [("model", JVal.str "m"), ("prompt", JVal.str "x"),
       ("max_tokens", JVal.num 50), ("stream", JVal.bool true),
       ("stream_options", JVal.obj []),
       ("max_completion_tokens", JVal.num 7)]) "model"
      = some (JVal.str "m") :=
  ⟨(claim_C1_prefill_request_mutation _).1,
   (claim_C1_prefill_request_mutation _).2.2.1 rfl,
   (claim_C1_prefill_request_mutation _).2.2.2.2.2.2 "model"
     (by decide) (by decide) (by decide) (by decide) (by decide)⟩

/-- C7 counterexample: the prefill response body contains kv_transfer_params
with the empty object as value, so by the claim the decode payload should
have its kv_transfer_params replaced by that empty object; but the code
tests Python truthiness and an empty dict is falsy, so the caller payload
is left untouched and still carries its own kv_transfer_params value. -/
theorem claim_C7_counterexample :
    getKey [("kv_transfer_params", JVal.obj [])] "kv_transfer_params"
      = some (JVal.obj [])
  ∧ merge_kv_transfer_params
      [("kv_transfer_params", JVal.obj [("a", JVal.null)]),
       ("stream", JVal.bool true)]
      [("kv_transfer_params", JVal.obj [])]
    = [("kv_transfer_params", JVal.obj [("a", JVal.null)]),
       ("stream", JVal.bool true)]
  ∧ ¬ (getKey (merge_kv_transfer_params
        [("kv_transfer_params", JVal.obj [("a", JVal.null)]),
         ("stream", JVal.bool true)]
        [("kv_transfer_params", JVal.obj [])]) "kv_transfer_params"
      = some (JVal.obj [])) := by
  refine ⟨rfl, rfl, ?_⟩
  intro h
  exact List.cons_ne_nil _ _ (JVal.obj.inj (Option.some.inj h))

/-- C7 (amended): when the prefill response's JSON body carries a truthy
(in particular, non-empty mapping) kv_transfer_params value, the decode
payload equals the caller payload with that key replaced by the response
value and every other field unchanged, so the caller's stream and
max_tokens are intact. -/
theorem claim_C7_merge_truthy (req resp : List (String × JVal)) (kv : JVal)
    (hkv : getKey resp "kv_transfer_params" = some kv)
    (ht : jvalTruthy kv = true) :
    merge_kv_transfer_params req resp = setKey req "kv_transfer_params" kv
  ∧ getKey (merge_kv_transfer_params req resp) "kv_transfer_params" = some kv
  ∧ ∀ k, k ≠ "kv_transfer_params" →
      getKey (merge_kv_transfer_params req resp) k = getKey req k := by
  have hm : merge_kv_transfer_params req resp
      = setKey req "kv_transfer_params" kv := by
    unfold merge_kv_transfer_params getD
    rw [hkv]
    simp [ht]
  refine ⟨hm, ?_, ?_⟩
  · rw [hm, getKey_setKey_self]
  · intro k h
    rw [hm, getKey_setKey_ne _ _ _ _ h]

/-- Witness for C7 (amended) on the end-to-end scenario payloads. -/
theorem claim_C7_witness :
    merge_kv_transfer_params
      [("model", JVal.str "m"), ("prompt", JVal.str "x"),
       ("max_tokens", JVal.num 50), ("stream", JVal.bool true)]
      [("kv_transfer_params",
        JVal.obj [("remote_engine_id", JVal.str "abc")])]
    = [("model", JVal.str "m"), ("prompt", JVal.str "x"),
       ("max_tokens", JVal.num 50), ("stream", JVal.bool true),
       ("kv_transfer_params",
        JVal.obj [("remote_engine_id", JVal.str "abc")])]
  ∧ getKey (merge_kv_transfer_params
      [("model", JVal.str "m"), ("prompt", JVal.str "x"),
       ("max_tokens", JVal.num 50), ("stream", JVal.bool true)]
      [("kv_transfer_params",
        JVal.obj [("remote_engine_id", JVal.str "abc")])]) "stream"
      = some (JVal.bool true)
  ∧ getKey (merge_kv_transfer_params
      [("model", JVal.str "m"), ("prompt", JVal.str "x"),
       ("max_tokens", JVal.num 50), ("stream", JVal.bool true)]
      [("kv_transfer_params",
        JVal.obj [("remote_engine_id", JVal.str "abc")])]) "max_tokens"
      = some (JVal.num 50) :=
  ⟨(claim_C7_merge_truthy
      [("model", JVal.str "m"), ("prompt", JVal.str "x"),
       ("max_tokens", JVal.num 50), ("stream", JVal.bool true)]
      [("kv_transfer_params",
        JVal.obj [("remote_engine_id", JVal.str "abc")])]
      (JVal.obj [("remote_engine_id", JVal.str "abc")]) rfl rfl).1,
   (claim_C7_merge_truthy
      [("model", JVal.str "m"), ("prompt", JVal.str "x"),
       ("max_tokens", JVal.num 50), ("stream", JVal.bool true)]
      [("kv_transfer_params",
        JVal.obj [("remote_engine_id", JVal.str "abc")])]
      (JVal.obj [("remote_engine_id", JVal.str "abc")]) rfl rfl).2.2
      "stream" (by decide),
   (claim_C7_merge_truthy
      [("model", JVal.str "m"), ("prompt", JVal.str "x"),
       ("max_tokens", JVal.num 50), ("stream", JVal.bool true)]
      [("kv_transfer_params",
        JVal.obj [("remote_engine_id", JVal.str "abc")])]
      (JVal.obj [("remote_engine_id", JVal.str "abc")]) rfl rfl).2.2
      "max_tokens" (by decide)⟩

/-- C10: when the prefill response lacks kv_transfer_params, or carries it
with the empty mapping as value, the decode payload is exactly the caller
payload, neither removed nor overwritten; the overwrite does happen for
every non-empty mapping value. -/
theorem claim_C10_kv_absent_or_empty (req resp : List (String × JVal)) :
    (getKey resp "kv_transfer_params" = none →
      merge_kv_transfer_params req resp = req)
  ∧ (getKey resp "kv_transfer_params" = some (JVal.obj []) →
      merge_kv_transfer_params req resp = req)
  ∧ (∀ fs, fs ≠ [] →
      getKey resp "kv_transfer_params" = some (JVal.obj fs) →
      merge_kv_transfer_params req resp
        = setKey req "kv_transfer_params" (JVal.obj fs)) := by
  refine ⟨?_, ?_, ?_⟩
  · intro h
    unfold merge_kv_transfer_params getD
    rw [h]
    simp [jvalTruthy]
  · intro h
    unfold merge_kv_transfer_params getD
    rw [h]
    simp [jvalTruthy]
  · intro fs hfs h
    unfold merge_kv_transfer_params getD
    rw [h]
    cases fs with
    | nil => exact absurd rfl hfs
    | cons p t => simp [jvalTruthy]

/-- Witness for C10: absent key, empty mapping, and a non-empty mapping. -/
theorem claim_C10_witness :
    merge_kv_transfer_params [("stream", JVal.bool true)] []
      = [("stream", JVal.bool true)]
  ∧ merge_kv_transfer_params [("stream", JVal.bool true)]
      [("kv_transfer_params", JVal.obj [])]
      = [("stream", JVal.bool true)]
  ∧ merge_kv_transfer_params [("stream", JVal.bool true)]
      [("kv_transfer_params",
        JVal.obj [("remote_engine_id", JVal.str "abc")])]
      = [("stream", JVal.bool true),
         ("kv_transfer_params",
          JVal.obj [("remote_engine_id", JVal.str "abc")])] :=
  ⟨(claim_C10_kv_absent_or_empty _ _).1 rfl,
   (claim_C10_kv_absent_or_empty _ _).2.1 rfl,
   (claim_C10_kv_absent_or_empty _ _).2.2 _ (List.cons_ne_nil _ _) rfl⟩

/-- C2: when prefill timing was captured and the first received chunk is a
data event whose JSON object carries vllm_timing with both queued_time and
execute_time, the relayed first chunk is the event with its vllm_timing
replaced by exactly the four-field object whose first two values are the
captured prefill timing and whose last two are the chunk's own values. -/
theorem claim_C2_first_chunk_rewrite (pq pe qt et : JVal) (payload : String)
    (fs ts : List (String × JVal)) (t : Int) (rest : List (ChunkForm × Int))
    (hp1 : payload ≠ "") (hp2 : payload ≠ "[DONE]")
    (hv : getKey fs "vllm_timing" = some (JVal.obj ts))
    (hq : getKey ts "queued_time" = some qt)
    (he : getKey ts "execute_time" = some et) :
    (generate_stream (some (pq, pe))
        ((ChunkForm.dataChunk payload (some (JVal.obj fs)), t)
          :: rest)).head?
      = some (SentChunk.rewritten
          (JVal.obj (setKey fs "vllm_timing" (make_timing_obj pq pe qt et))),
          false) := by
  unfold generate_stream stream_go
  simp [try_inject, inject_timing, hv, hq, he, hp1, hp2]

/-- Witness for C2 on the round-trip example of the spec: chunk timing
queued 0.01 and execute 0.05, captured prefill timing 0.02 and 0.08. -/
theorem claim_C2_witness :
    (generate_stream (some (JVal.num 0.02, JVal.num 0.08))
        [(ChunkForm.dataChunk "first-chunk"
            (some (JVal.obj [("vllm_timing",
              JVal.obj [("queued_time", JVal.num 0.01),
                        ("execute_time", JVal.num 0.05)])])), 100)]).head?
      = some (SentChunk.rewritten (JVal.obj [("vllm_timing",
          JVal.obj [("prefill_queued_time", JVal.num 0.02),
                    ("prefill_execute_time", JVal.num 0.08),
                    ("decode_queued_time", JVal.num 0.01),
                    ("decode_execute_time", JVal.num 0.05)])]), false) :=
  claim_C2_first_chunk_rewrite (JVal.num 0.02) (JVal.num 0.08)
    (JVal.num 0.01) (JVal.num 0.05) "first-chunk"
    [("vllm_timing", JVal.obj [("queued_time", JVal.num 0.01),
                               ("execute_time", JVal.num 0.05)])]
    [("queued_time", JVal.num 0.01), ("execute_time", JVal.num 0.05)]
    100 [] (by decide) (by decide) rfl rfl rfl

/-- C3 is refuted by the code: first-chunk detection compares the
millisecond timestamp of the current chunk with the timestamp recorded at
the first chunk, so a second chunk received in the same millisecond as the
first, itself carrying a vllm_timing object, is also rewritten rather than
relayed byte-identical. Both chunks of this stream arrive at timestamp 100
and both are rewritten; the claim predicts the second is forwarded
unchanged. -/
theorem claim_C3_same_ms_second_chunk_rewritten :
    generate_stream (some (JVal.num 0.02, JVal.num 0.08))
      [(ChunkForm.dataChunk "chunk-one"
          (some (JVal.obj [("vllm_timing",
            JVal.obj [("queued_time", JVal.num 0.01),
                      ("execute_time", JVal.num 0.05)])])), 100),
       (ChunkForm.dataChunk "chunk-two"
          (some (JVal.obj [("vllm_timing",
            JVal.obj [("queued_time", JVal.num 0.03),
                      ("execute_time", JVal.num 0.07)])])), 100)]
    = [(SentChunk.rewritten (JVal.obj [("vllm_timing",
          make_timing_obj (JVal.num 0.02) (JVal.num 0.08)
            (JVal.num 0.01) (JVal.num 0.05))]), false),
       (SentChunk.rewritten (JVal.obj [("vllm_timing",
          make_timing_obj (JVal.num 0.02) (JVal.num 0.08)
            (JVal.num 0.03) (JVal.num 0.07))]), false)] := rfl

/-- C4: when the rewrite is attempted on the first chunk and fails, either
because json.loads raises on the payload or because the parsed event lacks
the required vllm_timing fields, the chunk is forwarded exactly as
received, the warning is logged, and the stream continues: the relay has
an output for every received chunk. -/
theorem claim_C4_failed_rewrite_forwards (pq pe : JVal) (payload : String)
    (parsed : Option JVal) (t : Int) (rest : List (ChunkForm × Int))
    (hp : ¬ (payload = "" ∨ payload = "[DONE]"))
    (hfail : parsed.bind (inject_timing pq pe) = none) :
    (generate_stream (some (pq, pe))
        ((ChunkForm.dataChunk payload parsed, t) :: rest)).head?
      = some (SentChunk.forwarded, true)
  ∧ (generate_stream (some (pq, pe))
        ((ChunkForm.dataChunk payload parsed, t) :: rest)).length
      = rest.length + 1 := by
  constructor
  · unfold generate_stream stream_go
    cases parsed with
    | none => simp [try_inject, hp]
    | some d =>
      have hfail' : inject_timing pq pe d = none := hfail
      simp [try_inject, hp, hfail']
  · unfold generate_stream
    rw [stream_go_length]
    simp

/-- Witness for C4: a first chunk whose payload is not valid JSON. -/
theorem claim_C4_witness :
    (generate_stream (some (JVal.num 0.02, JVal.num 0.08))
        [(ChunkForm.dataChunk "not-json" none, 100)]).head?
      = some (SentChunk.forwarded, true)
  ∧ (generate_stream (some (JVal.num 0.02, JVal.num 0.08))
        [(ChunkForm.dataChunk "not-json" none, 100)]).length = 1 :=
  ⟨(claim_C4_failed_rewrite_forwards (JVal.num 0.02) (JVal.num 0.08)
      "not-json" none 100 [] (by decide) rfl).1,
   (claim_C4_failed_rewrite_forwards (JVal.num 0.02) (JVal.num 0.08)
      "not-json" none 100 [] (by decide) rfl).2⟩

/-- C9: a first chunk whose stripped payload is empty or is the stream
terminator marker is forwarded unchanged with no rewrite attempt and no
warning, whether or not prefill timing was captured. -/
theorem claim_C9_terminator_or_empty (pt : Option (JVal × JVal))
    (payload : String) (parsed : Option JVal) (t : Int)
    (rest : List (ChunkForm × Int))
    (hp : payload = "" ∨ payload = "[DONE]") :
    (generate_stream pt
        ((ChunkForm.dataChunk payload parsed, t) :: rest)).head?
      = some (SentChunk.forwarded, false) := by
  unfold generate_stream stream_go
  cases pt with
  | none => simp
  | some p =>
    obtain ⟨pq, pe⟩ := p
    simp [try_inject, hp]

/-- Witness for C9: the terminator as first chunk with captured timing. -/
theorem claim_C9_witness :
    (generate_stream (some (JVal.num 0.02, JVal.num 0.08))
        [(ChunkForm.dataChunk "[DONE]" none, 42)]).head?
      = some (SentChunk.forwarded, false) :=
  claim_C9_terminator_or_empty (some (JVal.num 0.02, JVal.num 0.08))
    "[DONE]" none 42 [] (Or.inr rfl)

/-- C5 counterexample: with a successful prefill and a decode backend
answering 400, the handler has already returned its streaming response
before the decode call is made, so the backend status and body only abort
the response body; the result is a streamingResponse value, not a raised
error carrying the status and body out of the handler, and no response
whose status and body are those of the backend is ever constructed by
this code, contradicting the claim that they are surfaced verbatim to the
caller as the response. -/
theorem claim_C5_counterexample :
    handle_completions [("prompt", JVal.str "x")]
      (fun _ _ => Outcome.ok [])
      (fun _ _ => Outcome.httpError 400 "bad request")
      = HandlerResult.streamingResponse
          (StreamBody.abortedHttp 400 "bad request")
  ∧ HandlerResult.streamingResponse
        (StreamBody.abortedHttp 400 "bad request")
      ≠ HandlerResult.raisedHttp 400 "bad request" := by
  refine ⟨rfl, ?_⟩
  intro h
  exact HandlerResult.noConfusion h

/-- C5 (amended): on a non-2xx backend response no retry is attempted and
the error carries the backend status and body unchanged; a prefill-phase
error is raised out of the handler before any decode call, its conversion
into the caller-visible response being the framework's default handling
outside this code, while a decode-phase error, reached only when the
prefill phase succeeded and the prefill-timing instrumentation did not
raise, aborts the already-returned streaming response body rather than
becoming the response status and body; an exception from the timing
instrumentation itself is raised before any decode call; and the handler
outcome depends only on the first (index 0) response of each backend. -/
theorem claim_C5_no_retry_error_paths (req : List (String × JVal))
    (pb pb' : List (String × JVal) → Nat → Outcome (List (String × JVal)))
    (db db' : List (String × JVal) → Nat → Outcome (List (ChunkForm × Int)))
    (s : Nat) (b : String) :
    (pb (send_request_to_service req) 0 = .httpError s b →
      handle_completions req pb db = .raisedHttp s b)
  ∧ (∀ resp pt, pb (send_request_to_service req) 0 = .ok resp →
      extract_prefill_timing resp = some pt →
      db (merge_kv_transfer_params req resp) 0 = .httpError s b →
      handle_completions req pb db
        = .streamingResponse (.abortedHttp s b))
  ∧ (∀ resp, pb (send_request_to_service req) 0 = .ok resp →
      extract_prefill_timing resp = none →
      handle_completions req pb db = .raisedInternal)
  ∧ ((∀ r, pb r 0 = pb' r 0) → (∀ r, db r 0 = db' r 0) →
      handle_completions req pb db = handle_completions req pb' db') := by
  refine ⟨?_, ?_, ?_, ?_⟩
  · intro h
    simp only [handle_completions, h]
  · intro resp pt h1 hex h2
    simp only [handle_completions, h1, hex, h2]
  · intro resp h1 hex
    simp only [handle_completions, h1, hex]
  · intro hpb hdb
    simp only [handle_completions, hpb, hdb]

/-- Witness for C5 (amended): a 503 from the prefill backend raised out
of the handler; a 400 from the decode backend aborting the stream body;
and a prefill response whose vllm_timing carries a null queued_time,
which makes the timing log line raise before any decode call. -/
theorem claim_C5_witness :
    handle_completions [("prompt", JVal.str "x")]
      (fun _ _ => Outcome.httpError 503 "overloaded")
      (fun _ _ => Outcome.ok [])
      = HandlerResult.raisedHttp 503 "overloaded"
  ∧ handle_completions [("prompt", JVal.str "x")]
      (fun _ _ => Outcome.ok [])
      (fun _ _ => Outcome.httpError 400 "bad request")
      = HandlerResult.streamingResponse
          (StreamBody.abortedHttp 400 "bad request")
  ∧ handle_completions [("prompt", JVal.str "x")]
      (fun _ _ => Outcome.ok [("vllm_timing",
          JVal.obj [("queued_time", JVal.null),
                    ("execute_time", JVal.num 0.05)])])
      (fun _ _ => Outcome.httpError 400 "bad request")
      = HandlerResult.raisedInternal :=
  ⟨(claim_C5_no_retry_error_paths [("prompt", JVal.str "x")]
      (fun _ _ => Outcome.httpError 503 "overloaded")
      (fun _ _ => Outcome.httpError 503 "overloaded")
      (fun _ _ => Outcome.ok []) (fun _ _ => Outcome.ok [])
      503 "overloaded").1 rfl,
   (claim_C5_no_retry_error_paths [("prompt", JVal.str "x")]
      (fun _ _ => Outcome.ok []) (fun _ _ => Outcome.ok [])
      (fun _ _ => Outcome.httpError 400 "bad request")
      (fun _ _ => Outcome.httpError 400 "bad request")
      400 "bad request").2.1 [] none rfl rfl rfl,
   (claim_C5_no_retry_error_paths [("prompt", JVal.str "x")]
      (fun _ _ => Outcome.ok [("vllm_timing",
          JVal.obj [("queued_time", JVal.null),
                    ("execute_time", JVal.num 0.05)])])
      (fun _ _ => Outcome.ok [("vllm_timing",
          JVal.obj [("queued_time", JVal.null),
                    ("execute_time", JVal.num 0.05)])])
      (fun _ _ => Outcome.httpError 400 "bad request")
      (fun _ _ => Outcome.httpError 400 "bad request")
      400 "bad request").2.2.1
      [("vllm_timing",
        JVal.obj [("queued_time", JVal.null),
                  ("execute_time", JVal.num 0.05)])] rfl rfl⟩

theorem role_outputs_cons (role r : String) (x : Option Nat)
    (rest : List (String × Option Nat)) :
    role_outputs role ((r, x) :: rest)
      = if r = role then x :: role_outputs role rest
        else role_outputs role rest := by
  unfold role_outputs
  by_cases h : r = role <;> simp [h]

theorem get_next_client_prefill (P D : Nat) (st : AppState) (hP : P ≠ 0) :
    get_next_client P D st "prefill"
      = some (st.prefill_cursor % P,
              ⟨st.prefill_cursor + 1, st.decode_cursor⟩) := by
  unfold get_next_client
  rw [if_pos rfl, if_neg hP]

theorem get_next_client_prefill_zero (D : Nat) (st : AppState) :
    get_next_client 0 D st "prefill" = none := by
  unfold get_next_client
  rw [if_pos rfl, if_pos rfl]

theorem get_next_client_decode (P D : Nat) (st : AppState) (hD : D ≠ 0) :
    get_next_client P D st "decode"
      = some (st.decode_cursor % D,
              ⟨st.prefill_cursor, st.decode_cursor + 1⟩) := by
  unfold get_next_client
  rw [if_neg (by decide), if_pos rfl, if_neg hD]

theorem get_next_client_decode_zero (P : Nat) (st : AppState) :
    get_next_client P 0 st "decode" = none := by
  unfold get_next_client
  rw [if_neg (by decide), if_pos rfl, if_pos rfl]

theorem get_next_client_other (P D : Nat) (st : AppState) (r : String)
    (h1 : r ≠ "prefill") (h2 : r ≠ "decode") :
    get_next_client P D st r = none := by
  unfold get_next_client
  rw [if_neg h1, if_neg h2]

theorem run_calls_prefill_outputs (P D : Nat) (hP : P ≠ 0) :
    ∀ (calls : List String) (pc dc : Nat),
      role_outputs "prefill" (run_calls P D ⟨pc, dc⟩ calls)
        = (List.range (calls.count "prefill")).map
            (fun k => some ((pc + k) % P)) := by
  intro calls
  induction calls with
  | nil => intro pc dc; rfl
  | cons r rs ih =>
    intro pc dc
    by_cases hr : r = "prefill"
    · subst hr
      simp only [run_calls]
      rw [get_next_client_prefill P D ⟨pc, dc⟩ hP]
      dsimp only
      rw [role_outputs_cons, if_pos rfl, ih (pc + 1) dc]
      have hcount : ("prefill" :: rs).count "prefill"
          = rs.count "prefill" + 1 := by simp
      rw [hcount, List.range_succ_eq_map, List.map_cons, List.map_map]
      have hfun : List.map (fun k => some ((pc + 1 + k) % P))
            (List.range (rs.count "prefill"))
          = List.map ((fun k => some ((pc + k) % P)) ∘ Nat.succ)
            (List.range (rs.count "prefill")) := by
        apply List.map_congr_left
        intro a _
        simp only [Function.comp_apply]
        congr 2
        omega
      rw [hfun]
      simp
    · by_cases hd : r = "decode"
      · subst hd
        simp only [run_calls]
        by_cases hD : D = 0
        · subst hD
          rw [get_next_client_decode_zero P ⟨pc, dc⟩]
          dsimp only
          rw [role_outputs_cons, if_neg (by decide), ih pc dc]
          simp
        · rw [get_next_client_decode P D ⟨pc, dc⟩ hD]
          dsimp only
          rw [role_outputs_cons, if_neg (by decide), ih pc (dc + 1)]
          simp
      · simp only [run_calls]
        rw [get_next_client_other P D ⟨pc, dc⟩ r hr hd]
        dsimp only
        rw [role_outputs_cons, if_neg hr, ih pc dc]
        have hcount : (r :: rs).count "prefill" = rs.count "prefill" := by
          simp [List.count_cons, Ne.symm hr]
        rw [hcount]

theorem run_calls_decode_outputs (P D : Nat) (hD : D ≠ 0) :
    ∀ (calls : List String) (pc dc : Nat),
      role_outputs "decode" (run_calls P D ⟨pc, dc⟩ calls)
        = (List.range (calls.count "decode")).map
            (fun k => some ((dc + k) % D)) := by
  intro calls
  induction calls with
  | nil => intro pc dc; rfl
  | cons r rs ih =>
    intro pc dc
    by_cases hr : r = "prefill"
    · subst hr
      simp only [run_calls]
      by_cases hP : P = 0
      · subst hP
        rw [get_next_client_prefill_zero D ⟨pc, dc⟩]
        dsimp only
        rw [role_outputs_cons, if_neg (by decide), ih pc dc]
        simp
      · rw [get_next_client_prefill P D ⟨pc, dc⟩ hP]
        dsimp only
        rw [role_outputs_cons, if_neg (by decide), ih (pc + 1) dc]
        simp
    · by_cases hd : r = "decode"
      · subst hd
        simp only [run_calls]
        rw [get_next_client_decode P D ⟨pc, dc⟩ hD]
        dsimp only
        rw [role_outputs_cons, if_pos rfl, ih pc (dc + 1)]
        have hcount : ("decode" :: rs).count "decode"
            = rs.count "decode" + 1 := by simp
        rw [hcount, List.range_succ_eq_map, List.map_cons, List.map_map]
        have hfun : List.map (fun k => some ((dc + 1 + k) % D))
              (List.range (rs.count "decode"))
            = List.map ((fun k => some ((dc + k) % D)) ∘ Nat.succ)
              (List.range (rs.count "decode")) := by
          apply List.map_congr_left
          intro a _
          simp only [Function.comp_apply]
          congr 2
          omega
        rw [hfun]
        simp
      · simp only [run_calls]
        rw [get_next_client_other P D ⟨pc, dc⟩ r hr hd]
        dsimp only
        rw [role_outputs_cons, if_neg hd, ih pc dc]
        have hcount : (r :: rs).count "decode" = rs.count "decode" := by
          simp [List.count_cons, Ne.symm hd]
        rw [hcount]

/-- C6: starting from the initial cursors, and under any interleaving of
calls for the two roles, the n-th call for a role over a pool of size P
at least 1 returns index (n-1) mod P, counting from 1: the first call
returns 0, successive calls increment by 1 and wrap at P, a pool of size
1 always yields 0, and each role's cursor rotates independently of the
other role's calls. -/
theorem claim_C6_round_robin (P D : Nat) (calls : List String) :
    (P ≠ 0 → role_outputs "prefill" (run_calls P D ⟨0, 0⟩ calls)
      = (List.range (calls.count "prefill")).map (fun k => some (k % P)))
  ∧ (D ≠ 0 → role_outputs "decode" (run_calls P D ⟨0, 0⟩ calls)
      = (List.range (calls.count "decode")).map (fun k => some (k % D))) := by
  constructor
  · intro hP
    have h := run_calls_prefill_outputs P D hP calls 0 0
    simpa using h
  · intro hD
    have h := run_calls_decode_outputs P D hD calls 0 0
    simpa using h

/-- Witness for C6: a prefill pool of size 2 and a decode pool of size 1
under an interleaved call sequence: prefill indices cycle 0, 1, 0 and the
single-endpoint decode pool returns 0 on every call. -/
theorem claim_C6_witness :
    role_outputs "prefill" (run_calls 2 1 ⟨0, 0⟩
        ["prefill", "decode", "prefill", "decode", "prefill"])
      = [some 0, some 1, some 0]
  ∧ role_outputs "decode" (run_calls 2 1 ⟨0, 0⟩
        ["prefill", "decode", "prefill", "decode", "prefill"])
      = [some 0, some 0] := by
  constructor
  · have h := (claim_C6_round_robin 2 1
      ["prefill", "decode", "prefill", "decode", "prefill"]).1 (by decide)
    rw [h]
    decide
  · have h := (claim_C6_round_robin 2 1
      ["prefill", "decode", "prefill", "decode", "prefill"]).2 (by decide)
    rw [h]
    decide

theorem getD_ne_nil {α : Type} (o : Option (List α)) (d : List α)
    (hd : d ≠ []) (ho : o ≠ some []) : o.getD d ≠ [] := by
  cases o with
  | none => simpa using hd
  | some l =>
    simp only [Option.getD_some]
    intro h
    exact ho (by rw [h])

theorem zip_ne_nil {α β : Type} (l1 : List α) (l2 : List β)
    (h1 : l1 ≠ []) (h2 : l2 ≠ []) : l1.zip l2 ≠ [] := by
  cases l1 with
  | nil => exact absurd rfl h1
  | cons a t1 =>
    cases l2 with
    | nil => exact absurd rfl h2
    | cons b t2 => simp

/-- C8: startup configuration parsing fails when a role's effective host
list length differs from its effective port list length, and a required
role can never end up with zero endpoints: argparse rejects a flag
supplied with zero values, the defaults are singleton lists, and every
successful parse yields at least one endpoint per role; in each failing
case no Args value is produced, so the server does not start. -/
theorem claim_C8_parse_args (ph : Option (List String))
    (pp : Option (List Nat)) (dh : Option (List String))
    (dp : Option (List Nat)) :
    ((ph.getD ["localhost"]).length ≠ (pp.getD [8100]).length →
      ∃ e, parse_args ph pp dh dp = .error e)
  ∧ ((dh.getD ["localhost"]).length ≠ (dp.getD [8200]).length →
      ∃ e, parse_args ph pp dh dp = .error e)
  ∧ (∀ args, parse_args ph pp dh dp = .ok args →
      args.prefiller_instances ≠ [] ∧ args.decoder_instances ≠ []) := by
  refine ⟨?_, ?_, ?_⟩
  · intro hlen
    simp only [parse_args]
    by_cases h0 : ph = some [] ∨ pp = some [] ∨ dh = some [] ∨ dp = some []
    · rw [if_pos h0]
      exact ⟨_, rfl⟩
    · rw [if_neg h0, if_pos hlen]
      exact ⟨_, rfl⟩
  · intro hlen
    simp only [parse_args]
    by_cases h0 : ph = some [] ∨ pp = some [] ∨ dh = some [] ∨ dp = some []
    · rw [if_pos h0]
      exact ⟨_, rfl⟩
    · rw [if_neg h0]
      by_cases h1 : (ph.getD ["localhost"]).length ≠ (pp.getD [8100]).length
      · rw [if_pos h1]
        exact ⟨_, rfl⟩
      · rw [if_neg h1, if_pos hlen]
        exact ⟨_, rfl⟩
  · intro args hok
    simp only [parse_args] at hok
    by_cases h0 : ph = some [] ∨ pp = some [] ∨ dh = some [] ∨ dp = some []
    · rw [if_pos h0] at hok
      exact Except.noConfusion hok
    · rw [if_neg h0] at hok
      by_cases h1 : (ph.getD ["localhost"]).length ≠ (pp.getD [8100]).length
      · rw [if_pos h1] at hok
        exact Except.noConfusion hok
      · rw [if_neg h1] at hok
        by_cases h2 : (dh.getD ["localhost"]).length ≠ (dp.getD [8200]).length
        · rw [if_pos h2] at hok
          exact Except.noConfusion hok
        · rw [if_neg h2] at hok
          push_neg at h0
          obtain ⟨hp, hq, hv, hw⟩ := h0
          cases hok
          constructor
          · exact zip_ne_nil _ _
              (getD_ne_nil ph ["localhost"] (by simp) hp)
              (getD_ne_nil pp [8100] (by simp) hq)
          · exact zip_ne_nil _ _
              (getD_ne_nil dh ["localhost"] (by simp) hv)
              (getD_ne_nil dp [8200] (by simp) hw)

/-- Witness for C8: a mismatched prefiller configuration fails, and the
default configuration parses to one endpoint per role. -/
theorem claim_C8_witness :
    (∃ e, parse_args (some ["a"]) (some [1, 2]) none none = .error e)
  ∧ ([("localhost", 8100)] ≠ ([] : List (String × Nat))
      ∧ [("localhost", 8200)] ≠ ([] : List (String × Nat))) :=
  ⟨(claim_C8_parse_args (some ["a"]) (some [1, 2]) none none).1 (by decide),
   (claim_C8_parse_args none none none none).2.2
     ⟨[("localhost", 8100)], [("localhost", 8200)]⟩ rfl⟩

end ToyProxy
